import Mathlib

/-!
Verification development for `rteval_parserd.c` (the rteval submission-queue
dispatcher daemon).  The C source is shallowly embedded: every external
effect (database claim, notification wait, POSIX message-queue send, signal
delivery, memory allocation, `pthread_create` result, file read) is an input
supplied by an environment/oracle value, and each C function becomes a pure
Lean function over those inputs that also records its observable actions
(log lines, sleeps, sends, frees, teardown steps) in a trace.
-/

/-- Job status values from `parsethread.h` that `rteval_parserd.c` inspects.
The poller only ever tests for `jbNONE`; any other status means the job was
claimed and must be dispatched. -/
inductive JobStatus
  | jbNONE
  | jbAVAIL
deriving DecidableEq

/-- Model of `parseJob_t`: submission id, file name and status.  The file
name is kept as a list of characters (C `char[]`). -/
structure ParseJob where
  submid : Nat
  filename : List Char
  status : JobStatus
deriving DecidableEq

/-- Outcome of one `mq_send` call as observed by the poller:
`ok` is `res >= 0` (errno stays 0), `eagain` is `res < 0 && errno == EAGAIN`
(queue full), `err` is `res < 0` with any other errno. -/
inductive SendRes
  | ok
  | eagain
  | err
deriving DecidableEq

/-- Observable actions of `process_submission_queue`, in program order. -/
inductive PollAction
  | claimed (j : Option ParseJob)
  | freed (submid : Nat)
  | waited (res : Int)
  | logNewJob (submid : Nat) (fname : List Char)
  | sendAttempt (submid : Nat) (r : SendRes)
  | warnFull
  | sleepSecs (n : Nat)
  | setShutdown
deriving DecidableEq

/-- Environment consumed by the poller loop: one external-signal observation
per loop-condition check (`true` means a SIGINT/SIGTERM arrived since the
previous check), one `db_get_submissionqueue_job` result per claim attempt
(`none` models a NULL return), one `db_wait_notification` return value per
wait, and one result per `mq_send` call. -/
structure PollEnv where
  sigs : List Bool
  claims : List (Option ParseJob)
  waits : List Int
  sends : List SendRes
deriving DecidableEq

/-- Result of a run of `process_submission_queue`: the returned `rc`, the
final value of the global `shutdown` flag, and the action trace. -/
structure PollResult where
  rc : Nat
  shutdown : Bool
  trace : List PollAction
deriving DecidableEq

/-- Model of the inner `do { ... } while (errno == EAGAIN)` retry loop around
`mq_send` in `process_submission_queue` (lines 144-160).  It consumes send
outcomes until the first non-`eagain` one.  Returns `(fatal, remaining
outcomes, actions)` where `fatal` is true exactly when the loop exited via
the `rc = 2` error branch; `none` means the supplied outcome list was
exhausted while the queue was still full (the loop would still be running). -/
def sendLoop (submid : Nat) : List SendRes → Option (Bool × List SendRes × List PollAction)
  | [] => none
  | r :: rest =>
    match r with
    | SendRes.ok => some (false, rest, [PollAction.sendAttempt submid SendRes.ok])
    | SendRes.err => some (true, rest, [PollAction.sendAttempt submid SendRes.err])
    | SendRes.eagain =>
      match sendLoop submid rest with
      | none => none
      | some (fatal, rem, acts) =>
        some (fatal, rem,
          PollAction.sendAttempt submid SendRes.eagain ::
          PollAction.warnFull :: PollAction.sleepSecs 60 :: acts)

/-- Model of `process_submission_queue` (lines 117-165).  `fuel` bounds the
number of `while (shutdown == 0)` iterations that can be evaluated; `sd` is
the current value of the global `shutdown` flag.  Each iteration first
observes whether a signal has set the flag (head of `sigs`), then claims a
job, and either waits for a notification (status `jbNONE`) or dispatches the
job through `sendLoop`.  `none` means an oracle list (or the fuel) was
exhausted before the function returned. -/
def pollLoop : Nat → Bool → PollEnv → Option PollResult
  | 0, _, _ => none
  | fuel+1, sd, env =>
    let sd2 := sd || env.sigs.headD false
    if sd2 then some ⟨0, true, []⟩
    else
      match env.claims with
      | [] => none
      | c :: claims2 =>
        match c with
        | none => some ⟨1, true, [PollAction.claimed none, PollAction.setShutdown]⟩
        | some job =>
          if job.status = JobStatus.jbNONE then
            match env.waits with
            | [] => none
            | w :: waits2 =>
              if w < 1 then
                some ⟨1, true,
                  [PollAction.claimed (some job), PollAction.freed job.submid,
                   PollAction.waited w, PollAction.setShutdown]⟩
              else
                (pollLoop fuel false ⟨env.sigs.tail, claims2, waits2, env.sends⟩).map
                  (fun r => ⟨r.rc, r.shutdown,
                    PollAction.claimed (some job) :: PollAction.freed job.submid ::
                    PollAction.waited w :: r.trace⟩)
          else
            match sendLoop job.submid env.sends with
            | none => none
            | some (fatal, sends2, acts) =>
              if fatal then
                some ⟨2, true,
                  PollAction.claimed (some job) ::
                  PollAction.logNewJob job.submid job.filename ::
                  (acts ++ [PollAction.setShutdown])⟩
              else
                (pollLoop fuel false ⟨env.sigs.tail, claims2, env.waits, sends2⟩).map
                  (fun r => ⟨r.rc, r.shutdown,
                    PollAction.claimed (some job) ::
                    PollAction.logNewJob job.submid job.filename ::
                    (acts ++ PollAction.freed job.submid :: r.trace)⟩)

/-- Actions produced by one full-queue cooldown round of the send retry loop,
repeated `k` times: a failed send, the warning log line, and the 60 second
sleep. -/
def cooldownActs (submid : Nat) : Nat → List PollAction
  | 0 => []
  | k+1 =>
    PollAction.sendAttempt submid SendRes.eagain ::
    PollAction.warnFull :: PollAction.sleepSecs 60 :: cooldownActs submid k

/-- Counter of trace actions matched by a Boolean predicate. -/
def nMatch (p : PollAction → Bool) : List PollAction → Nat
  | [] => 0
  | a :: tr => (if p a then 1 else 0) + nMatch p tr

/-- Predicate for a successful send of the job with the given submission id. -/
def isSendOk (submid : Nat) : PollAction → Bool
  | PollAction.sendAttempt t SendRes.ok => decide (t = submid)
  | _ => false

/-- Predicate for any `mq_send` attempt. -/
def isSendAny : PollAction → Bool
  | PollAction.sendAttempt _ _ => true
  | _ => false

/-- Predicate for the queue-full warning log line. -/
def isWarnFull : PollAction → Bool
  | PollAction.warnFull => true
  | _ => false

/-- Predicate for the 60 second cooldown sleep. -/
def isSleep60 : PollAction → Bool
  | PollAction.sleepSecs n => decide (n = 60)
  | _ => false

/-- Predicate for a claim attempt (a call to `db_get_submissionqueue_job`). -/
def isClaimAct : PollAction → Bool
  | PollAction.claimed _ => true
  | _ => false

/-- Signal-handler dispositions relevant to the model. -/
inductive SigHandler
  | sigcatchH
  | defaultH
deriving DecidableEq

/-- Log lines `sigcatch` can emit on stderr. -/
inductive LogEvent
  | startingShutdown
  | shutdownInProgress
deriving DecidableEq

/-- State touched by `sigcatch`: the global `shutdown` int, the stderr log,
and the installed handlers for SIGINT and SIGTERM. -/
structure SigState where
  shutdown : Nat
  log : List LogEvent
  sigint : SigHandler
  sigterm : SigHandler
deriving DecidableEq

/-- Model of `sigcatch` (lines 53-65): first call flips `shutdown` from 0 to
1 and logs the "Starting shutting down" line; later calls only log the
"Shutdown in progress" line; every call re-installs itself for both SIGINT
and SIGTERM. -/
def sigcatch (s : SigState) : SigState :=
  let s2 :=
    if s.shutdown = 0 then
      { s with shutdown := 1, log := s.log ++ [LogEvent.startingShutdown] }
    else
      { s with log := s.log ++ [LogEvent.shutdownInProgress] }
  { s2 with sigint := SigHandler.sigcatchH, sigterm := SigHandler.sigcatchH }

/-- DEFAULT_MSG_MAX from line 41. -/
def DEFAULT_MSG_MAX : Nat := 5

/-- Oracle for the read of `/proc/sys/fs/mqueue/msg_max` in
`get_mqueue_msg_max`: `openFail` models `fopen` returning NULL, `readFail`
models `fread` returning less than 1, and `content v` models a successful
read whose buffer `atoi_nullsafe` (external eurephia library) parses to the
C `int` value `v`. -/
inductive MqMaxRead
  | openFail
  | readFail
  | content (v : Int)
deriving DecidableEq

/-- Model of `get_mqueue_msg_max` (lines 74-105).  `msg_max` is an
`unsigned int` in the C source, so the `int` result of `atoi_nullsafe` is
converted modulo 2^32 before the `msg_max < 1` test (which, on an unsigned
value, only catches 0). -/
def get_mqueue_msg_max (r : MqMaxRead) : Nat :=
  match r with
  | MqMaxRead.openFail => DEFAULT_MSG_MAX
  | MqMaxRead.readFail => DEFAULT_MSG_MAX
  | MqMaxRead.content v =>
    let msg_max := (v % 4294967296).toNat
    if msg_max < 1 then DEFAULT_MSG_MAX else msg_max

/-- XMLPARSER_XSL from line 42 as a character list. -/
def XMLPARSER_XSL : List Char := ['x', 'm', 'l', 'p', 'a', 'r', 's', 'e', 'r', '.', 'x', 's', 'l']

/-- Size passed to `snprintf` when formatting the stylesheet path (line 197). -/
def SNPRINTF_SIZE : Nat := 512

/-- Declared size of the `xsltfile` buffer (line 178). -/
def XSLTFILE_BUF : Nat := 2050

/-- Model of `snprintf(xsltfile, 512, "%s/%s", xsltpath, XMLPARSER_XSL)`
(line 197): the formatted string is truncated to at most 511 characters
(512 minus the terminating NUL); no error is signalled on truncation. -/
def buildXsltPath (xsltpath : List Char) : List Char :=
  (xsltpath ++ '/' :: XMLPARSER_XSL).take (SNPRINTF_SIZE - 1)

/-- Configuration values that `main` reads from `/etc/rteval.conf` via
`eGet_value` (external eurephia library): the stylesheet directory and the
report destination directory. -/
structure Config where
  xsltpath : List Char
  reportdir : List Char
deriving DecidableEq

/-- Per-worker-slot oracle for the preparation loop of `main` (lines
231-272): whether `malloc_nullsafe` of the thread data succeeds, whether the
worker's `db_connect` succeeds, whether the attribute allocation succeeds,
and whether the `pthread_t` allocation succeeds. -/
structure SlotEnv where
  thrdataOk : Bool
  dbOk : Bool
  attrOk : Bool
  threadOk : Bool
deriving DecidableEq

/-- Per-slot oracle lookup; the loop in the C source always performs one
probe per slot, so out-of-range entries default to success. -/
def slotAt (slots : List SlotEnv) (i : Nat) : SlotEnv :=
  slots.getD i ⟨true, true, true, true⟩

/-- Allocation progress reached by the preparation loop: how many slots have
a non-NULL `thrdata[i]`, an open worker database connection, a non-NULL
`thread_attrs[i]`, and a non-NULL `threads[i]`; `ok` is false when the loop
exited through one of its `rc = 2; goto exit` branches. -/
structure PrepState where
  nThrdata : Nat
  nWorkerDb : Nat
  nAttrs : Nat
  nThreadsAlloc : Nat
  ok : Bool
deriving DecidableEq

/-- Model of the preparation loop of `main` (lines 231-272), iterating over
slots `i, i+1, ...` while `rem` iterations remain.  Allocation order inside
one slot follows the source: thread data, worker database connection, thread
attributes, `pthread_t`.  At the top of each iteration every count equals
`i`. -/
def prepGo (slots : List SlotEnv) : Nat → Nat → PrepState
  | 0, i => ⟨i, i, i, i, true⟩
  | rem+1, i =>
    let e := slotAt slots i
    if e.thrdataOk = false then ⟨i, i, i, i, false⟩
    else if e.dbOk = false then ⟨i+1, i, i, i, false⟩
    else if e.attrOk = false then ⟨i+1, i+1, i, i, false⟩
    else if e.threadOk = false then ⟨i+1, i+1, i+1, i, false⟩
    else prepGo slots rem (i+1)

/-- Model of the thread-start loop of `main` (lines 279-287).  `createRes`
holds the `pthread_create` return values; per POSIX the call returns 0 on
success and a positive error number on failure, but the source only treats a
negative return (`thr_rc < 0`) as failure.  The result is the number of
threads actually started (zero return values seen) and whether the loop
exited through its `rc = 3` branch. -/
def startGo (createRes : List Int) : Nat → Nat → Nat → Nat × Bool
  | 0, _, started => (started, false)
  | rem+1, i, started =>
    let v := createRes.getD i 0
    if v < 0 then (started, true)
    else startGo createRes rem (i+1) (started + (if v = 0 then 1 else 0))

/-- Teardown steps performed at the `exit:` label of `main` (lines 298-346),
in program order. -/
inductive TDAction
  | joinThread (i : Nat)
  | logJoinFail (i : Nat)
  | attrDestroy (i : Nat)
  | freeThreadPtr (i : Nat)
  | freeAttrPtr (i : Nat)
  | disconnectWorker (i : Nat)
  | freeThrdataPtr (i : Nat)
  | freeThrdataArr
  | freeThreadsArr
  | freeAttrsArr
  | mqClose
  | mqUnlink
  | disconnectMain
  | freeConfig
  | freeXslt
  | xmlCleanupAct
  | xsltCleanupAct
deriving DecidableEq

/-- Teardown actions for one slot `i` of the cleanup loop (lines 300-320):
if `threads[i]` was allocated (`i < nT`) the thread is joined — a nonzero
`pthread_join` result (`jr`) is logged and nothing more — and the attribute
and handle memory is released; then, if `thrdata[i]` was allocated
(`i < nD`), that worker's database connection is disconnected and its
context freed. -/
def slotTeardown (nT nD : Nat) (jr : List Int) (i : Nat) : List TDAction :=
  (if i < nT then
    TDAction.joinThread i ::
      ((if jr.getD i 0 ≠ 0 then [TDAction.logJoinFail i] else []) ++
       [TDAction.attrDestroy i, TDAction.freeThreadPtr i, TDAction.freeAttrPtr i])
  else []) ++
  (if i < nD then [TDAction.disconnectWorker i, TDAction.freeThrdataPtr i] else [])

/-- Teardown steps after the cleanup loop (lines 321-344): free the three
bookkeeping arrays, close and unlink the message queue, disconnect the main
thread's database connection, free the configuration, and release the XSLT
and XML library resources. -/
def tailTeardown : List TDAction :=
  [TDAction.freeThrdataArr, TDAction.freeThreadsArr, TDAction.freeAttrsArr,
   TDAction.mqClose, TDAction.mqUnlink, TDAction.disconnectMain,
   TDAction.freeConfig, TDAction.freeXslt, TDAction.xmlCleanupAct,
   TDAction.xsltCleanupAct]

/-- Full teardown trace of the single `exit:` path, as a function of how many
thread handles (`nT`) and worker contexts (`nD`) were allocated and of the
`pthread_join` results (`jr`). -/
def teardownTrace (nT nD : Nat) (jr : List Int) : List TDAction :=
  (List.range 5).flatMap (slotTeardown nT nD jr) ++ tailTeardown

/-- Environment for a run of `main`: configuration, success of the XSLT
template parse, the `/proc` read oracle, success of `mq_open` and of the
main thread's `db_connect`, the per-slot preparation oracle, the
`pthread_create` return values, the value `process_submission_queue` would
return, and the `pthread_join` return values. -/
structure MainEnv where
  cfg : Config
  xsltOk : Bool
  mqRead : MqMaxRead
  mqOpenOk : Bool
  dbMainOk : Bool
  slots : List SlotEnv
  createRes : List Int
  pollerRc : Nat
  joinRes : List Int
deriving DecidableEq

/-- Observable result of a run of `main`: the process exit code, the channel
capacity stored into `msgq_attr.mq_maxmsg` (0 when that line was never
reached), the formatted stylesheet path, the allocation counts reached, the
number of worker threads actually started, and the teardown trace. -/
structure MainResult where
  rc : Nat
  capacity : Nat
  xsltfile : List Char
  nThrdata : Nat
  nWorkerDb : Nat
  nAttrs : Nat
  nThreadsAlloc : Nat
  startedActual : Nat
  teardown : List TDAction
deriving DecidableEq

/-- Helper assembling a `MainResult` with its teardown trace. -/
def mkResult (rc cap nD nW nA nT started : Nat) (jr : List Int) : MainResult :=
  ⟨rc, cap, [], nD, nW, nA, nT, started, teardownTrace nT nD jr⟩

/-- Model of `main` (lines 176-347) minus the stylesheet-path formatting:
XSLT parse, message-queue open with capacity from `get_mqueue_msg_max`,
main database connection, preparation loop, thread-start loop, poller run,
and the unconditional teardown through the single `exit:` label.  Every
failure branch carries the `rc` value assigned at that branch in the
source. -/
def mainCore (xsltOk : Bool) (mqRead : MqMaxRead) (mqOpenOk dbMainOk : Bool)
    (slots : List SlotEnv) (createRes : List Int) (pollerRc : Nat) (jr : List Int) : MainResult :=
  if xsltOk = false then mkResult 2 0 0 0 0 0 0 jr
  else
    let cap := get_mqueue_msg_max mqRead
    if mqOpenOk = false then mkResult 2 cap 0 0 0 0 0 jr
    else if dbMainOk = false then mkResult 2 cap 0 0 0 0 0 jr
    else
      let ps := prepGo slots 5 0
      if ps.ok = false then mkResult 2 cap ps.nThrdata ps.nWorkerDb ps.nAttrs ps.nThreadsAlloc 0 jr
      else
        let sr := startGo createRes 5 0 0
        if sr.2 = true then mkResult 3 cap 5 5 5 5 sr.1 jr
        else mkResult pollerRc cap 5 5 5 5 sr.1 jr

/-- Model of `main`: `mainCore` plus the `snprintf` that formats the
stylesheet path from the configured `xsltpath`. -/
def mainRun (env : MainEnv) : MainResult :=
  { mainCore env.xsltOk env.mqRead env.mqOpenOk env.dbMainOk env.slots env.createRes
      env.pollerRc env.joinRes with
    xsltfile := buildXsltPath env.cfg.xsltpath }

/-- Same run with a different configuration value. -/
def withConfig (env : MainEnv) (c : Config) : MainEnv := { env with cfg := c }

/-- Same run with a different configured stylesheet directory. -/
def withXsltPath (env : MainEnv) (p : List Char) : MainEnv :=
  { env with cfg := { env.cfg with xsltpath := p } }

/-! ### Helper lemmas about the poller model -/

lemma nMatch_append (p : PollAction → Bool) (l m : List PollAction) :
    nMatch p (l ++ m) = nMatch p l + nMatch p m := by
  induction l with
  | nil => simp [nMatch]
  | cons a l ih => simp [nMatch, ih]; omega

lemma sendLoop_replicate_ok (s k : Nat) (rest : List SendRes) :
    sendLoop s (List.replicate k SendRes.eagain ++ SendRes.ok :: rest) =
      some (false, rest, cooldownActs s k ++ [PollAction.sendAttempt s SendRes.ok]) := by
  induction k with
  | zero => simp [sendLoop, cooldownActs]
  | succ k ih => simp [List.replicate_succ, sendLoop, ih, cooldownActs]

lemma nMatch_cooldown (s k : Nat) :
    nMatch (isSendOk s) (cooldownActs s k) = 0 ∧
    nMatch isSendAny (cooldownActs s k) = k ∧
    nMatch isWarnFull (cooldownActs s k) = k ∧
    nMatch isSleep60 (cooldownActs s k) = k ∧
    nMatch isClaimAct (cooldownActs s k) = 0 := by
  induction k with
  | zero => simp [cooldownActs, nMatch]
  | succ k ih =>
    simp [cooldownActs, nMatch, isSendOk, isSendAny, isWarnFull, isSleep60, isClaimAct, ih]
    omega

lemma cooldown_mem (s k : Nat) (a : PollAction) (h : a ∈ cooldownActs s k) :
    a = PollAction.sendAttempt s SendRes.eagain ∨ a = PollAction.warnFull ∨
      a = PollAction.sleepSecs 60 := by
  induction k with
  | zero => simp [cooldownActs] at h
  | succ k ih =>
    simp only [cooldownActs, List.mem_cons] at h
    rcases h with h | h | h | h
    · exact Or.inl h
    · exact Or.inr (Or.inl h)
    · exact Or.inr (Or.inr h)
    · exact ih h

lemma sendLoop_shape (s : Nat) :
    ∀ (sends : List SendRes) (f : Bool) (rem : List SendRes) (acts : List PollAction),
      sendLoop s sends = some (f, rem, acts) →
      ∀ a ∈ acts, (∃ r, a = PollAction.sendAttempt s r) ∨ a = PollAction.warnFull ∨
        a = PollAction.sleepSecs 60 := by
  intro sends
  induction sends with
  | nil => intro f rem acts h; simp [sendLoop] at h
  | cons r rest ih =>
    intro f rem acts h a ha
    cases r with
    | ok =>
      simp only [sendLoop, Option.some.injEq, Prod.mk.injEq] at h
      obtain ⟨-, -, hacts⟩ := h
      rw [← hacts] at ha
      simp only [List.mem_singleton] at ha
      exact Or.inl ⟨SendRes.ok, ha⟩
    | err =>
      simp only [sendLoop, Option.some.injEq, Prod.mk.injEq] at h
      obtain ⟨-, -, hacts⟩ := h
      rw [← hacts] at ha
      simp only [List.mem_singleton] at ha
      exact Or.inl ⟨SendRes.err, ha⟩
    | eagain =>
      rcases hrec : sendLoop s rest with _ | v
      · rw [sendLoop, hrec] at h; simp at h
      · obtain ⟨f2, rem2, acts2⟩ := v
        rw [sendLoop, hrec] at h
        simp only [Option.some.injEq, Prod.mk.injEq] at h
        obtain ⟨-, -, hacts⟩ := h
        rw [← hacts] at ha
        simp only [List.mem_cons] at ha
        rcases ha with rfl | rfl | rfl | ha
        · exact Or.inl ⟨SendRes.eagain, rfl⟩
        · exact Or.inr (Or.inl rfl)
        · exact Or.inr (Or.inr rfl)
        · exact ih f2 rem2 acts2 hrec a ha

lemma pollLoop_rc (fuel : Nat) :
    ∀ (sd : Bool) (env : PollEnv) (r : PollResult), pollLoop fuel sd env = some r →
      (r.rc = 0 ∨ r.rc = 1 ∨ r.rc = 2) ∧ (r.rc ≠ 0 → r.shutdown = true) := by
  induction fuel with
  | zero => intro sd env r h; simp [pollLoop] at h
  | succ fuel ih =>
    intro sd env r h
    simp only [pollLoop] at h
    split at h
    · injection h with h2; subst h2; simp
    · split at h
      · simp at h
      · split at h
        · injection h with h2; subst h2; simp
        · rename_i job
          split at h
          · split at h
            · simp at h
            · split at h
              · injection h with h2; subst h2; simp
              · rcases hrec : pollLoop fuel false ⟨env.sigs.tail, _, _, env.sends⟩ with _ | r2
                · rw [hrec] at h; simp at h
                · rw [hrec] at h
                  simp only [Option.map_some', Option.some.injEq] at h
                  subst h
                  exact ih false _ r2 hrec
          · split at h
            · simp at h
            · split at h
              · injection h with h2; subst h2; simp
              · rcases hrec : pollLoop fuel false ⟨env.sigs.tail, _, env.waits, _⟩ with _ | r2
                · rw [hrec] at h; simp at h
                · rw [hrec] at h
                  simp only [Option.map_some', Option.some.injEq] at h
                  subst h
                  exact ih false _ r2 hrec

lemma pollLoop_send_claimed (fuel : Nat) :
    ∀ (sd : Bool) (env : PollEnv) (r : PollResult), pollLoop fuel sd env = some r →
      ∀ (s : Nat) (res : SendRes), PollAction.sendAttempt s res ∈ r.trace →
        ∃ j, PollAction.claimed (some j) ∈ r.trace ∧ j.submid = s ∧
          j.status ≠ JobStatus.jbNONE := by
  induction fuel with
  | zero => intro sd env r h; simp [pollLoop] at h
  | succ fuel ih =>
    intro sd env r h s res hm
    simp only [pollLoop] at h
    split at h
    · injection h with h2; subst h2; simp at hm
    · split at h
      · simp at h
      · split at h
        · injection h with h2; subst h2; simp at hm
        · rename_i job hceq
          split at h
          · split at h
            · simp at h
            · split at h
              · injection h with h2; subst h2; simp at hm
              · rcases hrec : pollLoop fuel false ⟨env.sigs.tail, _, _, env.sends⟩ with _ | r2
                · rw [hrec] at h; simp at h
                · rw [hrec] at h
                  simp only [Option.map_some', Option.some.injEq] at h
                  subst h
                  simp only [List.mem_cons] at hm
                  rcases hm with hm | hm | hm | hm
                  · exact absurd hm (by simp)
                  · exact absurd hm (by simp)
                  · exact absurd hm (by simp)
                  · obtain ⟨j, hj, hjs, hjn⟩ := ih false _ r2 hrec s res hm
                    exact ⟨j, by simp [List.mem_cons, hj], hjs, hjn⟩
          · rename_i hst
            split at h
            · simp at h
            · rename_i hsl
              split at h
              · injection h with h2; subst h2
                simp only [List.mem_cons, List.mem_append] at hm
                rcases hm with hm | hm | hm | hm
                · exact absurd hm (by simp)
                · exact absurd hm (by simp)
                · rcases sendLoop_shape _ _ _ _ _ hsl _ hm with ⟨r3, hr3⟩ | hr3 | hr3
                  · obtain ⟨hsub, -⟩ := PollAction.sendAttempt.inj hr3
                    exact ⟨job, by simp, hsub.symm, hst⟩
                  · exact absurd hr3 (by simp)
                  · exact absurd hr3 (by simp)
                · exact absurd hm (by simp)
              · rcases hrec : pollLoop fuel false ⟨env.sigs.tail, _, env.waits, _⟩ with _ | r2
                · rw [hrec] at h; simp at h
                · rw [hrec] at h
                  simp only [Option.map_some', Option.some.injEq] at h
                  subst h
                  simp only [List.mem_cons, List.mem_append] at hm
                  rcases hm with hm | hm | hm | hm
                  · exact absurd hm (by simp)
                  · exact absurd hm (by simp)
                  · rcases sendLoop_shape _ _ _ _ _ hsl _ hm with ⟨r3, hr3⟩ | hr3 | hr3
                    · obtain ⟨hsub, -⟩ := PollAction.sendAttempt.inj hr3
                      exact ⟨job, by simp, hsub.symm, hst⟩
                    · exact absurd hr3 (by simp)
                    · exact absurd hr3 (by simp)
                  · rcases hm with hm | hm
                    · exact absurd hm (by simp)
                    · obtain ⟨j, hj, hjs, hjn⟩ := ih false _ r2 hrec s res hm
                      exact ⟨j, by simp [List.mem_cons, List.mem_append, hj], hjs, hjn⟩

/-- Refinement of `sendLoop` that also tracks the global `shutdown` flag
while the retry loop runs.  Each oracle entry pairs the `mq_send` outcome
with whether a termination signal (which would run `sigcatch` and set the
flag, possibly interrupting the `sleep(60)`) arrived since the previous
attempt; the flag once set stays set.  Faithful to lines 144-160: the
do-while condition is `errno == EAGAIN` alone, so the flag value never
influences whether another send is attempted.  Every trace entry records the
flag value in force at that action. -/
def sendLoopSig (submid : Nat) : Bool → List (Bool × SendRes) →
    Option (Bool × Bool × List (Bool × PollAction))
  | _, [] => none
  | sd, (sig, r) :: rest =>
    let sd2 := sd || sig
    match r with
    | SendRes.ok => some (false, sd2, [(sd2, PollAction.sendAttempt submid SendRes.ok)])
    | SendRes.err => some (true, sd2, [(sd2, PollAction.sendAttempt submid SendRes.err)])
    | SendRes.eagain =>
      match sendLoopSig submid sd2 rest with
      | none => none
      | some (fatal, sdf, acts) =>
        some (fatal, sdf,
          (sd2, PollAction.sendAttempt submid SendRes.eagain) ::
          (sd2, PollAction.warnFull) :: (sd2, PollAction.sleepSecs 60) :: acts)

lemma sendLoopSig_proj (s : Nat) :
    ∀ (l : List (Bool × SendRes)) (sd f sdf : Bool) (acts : List (Bool × PollAction)),
      sendLoopSig s sd l = some (f, sdf, acts) →
      ∃ rem, sendLoop s (l.map Prod.snd) = some (f, rem, acts.map Prod.snd) := by
  intro l
  induction l with
  | nil => intro sd f sdf acts h; simp [sendLoopSig] at h
  | cons e rest ih =>
    intro sd f sdf acts h
    obtain ⟨sig, r⟩ := e
    cases r with
    | ok =>
      simp only [sendLoopSig, Option.some.injEq, Prod.mk.injEq] at h
      obtain ⟨hf, -, hacts⟩ := h
      refine ⟨rest.map Prod.snd, ?_⟩
      simp [sendLoop, ← hf, ← hacts]
    | err =>
      simp only [sendLoopSig, Option.some.injEq, Prod.mk.injEq] at h
      obtain ⟨hf, -, hacts⟩ := h
      refine ⟨rest.map Prod.snd, ?_⟩
      simp [sendLoop, ← hf, ← hacts]
    | eagain =>
      rcases h1 : sendLoopSig s (sd || sig) rest with _ | ⟨f2, sdf2, acts2⟩
      · rw [sendLoopSig, h1] at h; simp at h
      · rw [sendLoopSig, h1] at h
        simp only [Option.some.injEq, Prod.mk.injEq] at h
        obtain ⟨hf, -, hacts⟩ := h
        obtain ⟨rem, hrem⟩ := ih (sd || sig) f2 sdf2 acts2 h1
        refine ⟨rem, ?_⟩
        rw [List.map_cons, sendLoop, hrem, ← hf, ← hacts]
        simp

/-! ### Claim theorems about the poller and the signal handler -/

/-- C1 counterexample: a termination signal arriving during the first
cooldown sets the shutdown flag but does not stop the send retry loop — the
poller still performs a further full-queue round and a further send with the
flag already set, because the do-while at lines 144-160 tests only
`errno == EAGAIN`, never the flag.  Under the claim, the retry would have
ended when shutdown was requested. -/
theorem send_retry_ignores_shutdown_counterexample :
    ∃ sdf tr,
      sendLoopSig 42 false
          [(false, SendRes.eagain), (true, SendRes.eagain), (false, SendRes.ok)] =
        some (false, sdf, tr) ∧
      sdf = true ∧
      (true, PollAction.sendAttempt 42 SendRes.eagain) ∈ tr ∧
      (true, PollAction.sleepSecs 60) ∈ tr ∧
      (true, PollAction.sendAttempt 42 SendRes.ok) ∈ tr :=
  ⟨true,
   [(false, PollAction.sendAttempt 42 SendRes.eagain), (false, PollAction.warnFull),
    (false, PollAction.sleepSecs 60),
    (true, PollAction.sendAttempt 42 SendRes.eagain), (true, PollAction.warnFull),
    (true, PollAction.sleepSecs 60),
    (true, PollAction.sendAttempt 42 SendRes.ok)],
   rfl, rfl, by decide, by decide, by decide⟩


/-- C1 (amended): every job the poller claims with a dispatchable status is
sent into the message queue exactly once; each time the queue reports full
the poller logs the warning, sleeps the fixed 60 second cooldown and retries
the send of the same locally held job — it performs exactly one claim (never
re-claiming), every send attempt carries the claimed job's submission id,
and after the send finally succeeds the job is freed, never dropped.  The
retry stops only when the send succeeds or fails with a non-full error: a
shutdown request does not end it — the flag-tracking retry loop behaves
exactly like the flag-free one (second conjunct), so the shutdown flag has
no influence on the retry. -/
theorem claimed_job_sent_exactly_once (fuel k : Nat) (job : ParseJob)
    (h : job.status ≠ JobStatus.jbNONE) :
    (∃ tr,
      pollLoop (fuel + 2) false
          ⟨[false, true], [some job], [], List.replicate k SendRes.eagain ++ [SendRes.ok]⟩ =
        some ⟨0, true, tr⟩ ∧
      nMatch (isSendOk job.submid) tr = 1 ∧
      nMatch isSendAny tr = k + 1 ∧
      (∀ a ∈ tr, isSendAny a = true → ∃ r, a = PollAction.sendAttempt job.submid r) ∧
      nMatch isWarnFull tr = k ∧
      nMatch isSleep60 tr = k ∧
      nMatch isClaimAct tr = 1 ∧
      PollAction.freed job.submid ∈ tr) ∧
    (∀ (sd f sdf : Bool) (l : List (Bool × SendRes)) (acts : List (Bool × PollAction)),
      sendLoopSig job.submid sd l = some (f, sdf, acts) →
      ∃ rem, sendLoop job.submid (l.map Prod.snd) = some (f, rem, acts.map Prod.snd)) := by
  refine ⟨?_, fun sd f sdf l acts hs => sendLoopSig_proj job.submid l sd f sdf acts hs⟩
  have hsl := sendLoop_replicate_ok job.submid k []
  have hc := nMatch_cooldown job.submid k
  refine ⟨PollAction.claimed (some job) :: PollAction.logNewJob job.submid job.filename ::
    ((cooldownActs job.submid k ++ [PollAction.sendAttempt job.submid SendRes.ok]) ++
      [PollAction.freed job.submid]), ?_, ?_, ?_, ?_, ?_, ?_, ?_, ?_⟩
  · simp [pollLoop, h, hsl]
  · simp [nMatch, nMatch_append, isSendOk, isSendAny, isWarnFull, isSleep60, isClaimAct,
      hc.1, hc.2.1, hc.2.2.1, hc.2.2.2.1, hc.2.2.2.2]
  · simp [nMatch, nMatch_append, isSendOk, isSendAny, isWarnFull, isSleep60, isClaimAct,
      hc.1, hc.2.1, hc.2.2.1, hc.2.2.2.1, hc.2.2.2.2]
  · intro a ha hsa
    simp only [List.mem_cons, List.mem_append, List.mem_singleton, List.mem_nil_iff,
      or_false] at ha
    rcases ha with rfl | rfl | (ha | rfl) | rfl
    · simp [isSendAny] at hsa
    · simp [isSendAny] at hsa
    · rcases cooldown_mem job.submid k a ha with rfl | rfl | rfl
      · exact ⟨SendRes.eagain, rfl⟩
      · simp [isSendAny] at hsa
      · simp [isSendAny] at hsa
    · exact ⟨SendRes.ok, rfl⟩
    · simp [isSendAny] at hsa
  · simp [nMatch, nMatch_append, isSendOk, isSendAny, isWarnFull, isSleep60, isClaimAct,
      hc.1, hc.2.1, hc.2.2.1, hc.2.2.2.1, hc.2.2.2.2]
  · simp [nMatch, nMatch_append, isSendOk, isSendAny, isWarnFull, isSleep60, isClaimAct,
      hc.1, hc.2.1, hc.2.2.1, hc.2.2.2.1, hc.2.2.2.2]
  · simp [nMatch, nMatch_append, isSendOk, isSendAny, isWarnFull, isSleep60, isClaimAct,
      hc.1, hc.2.1, hc.2.2.1, hc.2.2.2.1, hc.2.2.2.2]
  · simp

/-- Witness for `claimed_job_sent_exactly_once` at a concrete job, two
full-queue rounds, and a retry during which a signal arrives. -/
theorem claimed_job_sent_exactly_once_witness :
    (∃ tr,
      pollLoop 2 false
          ⟨[false, true], [some ⟨42, [], JobStatus.jbAVAIL⟩], [],
            List.replicate 2 SendRes.eagain ++ [SendRes.ok]⟩ =
        some ⟨0, true, tr⟩ ∧
      nMatch (isSendOk 42) tr = 1 ∧
      nMatch isSendAny tr = 2 + 1 ∧
      (∀ a ∈ tr, isSendAny a = true → ∃ r, a = PollAction.sendAttempt 42 r) ∧
      nMatch isWarnFull tr = 2 ∧
      nMatch isSleep60 tr = 2 ∧
      nMatch isClaimAct tr = 1 ∧
      PollAction.freed 42 ∈ tr) ∧
    (∃ rem, sendLoop 42 [SendRes.eagain, SendRes.ok] = some (false, rem,
      [PollAction.sendAttempt 42 SendRes.eagain, PollAction.warnFull,
       PollAction.sleepSecs 60, PollAction.sendAttempt 42 SendRes.ok])) :=
  ⟨(claimed_job_sent_exactly_once 0 2 ⟨42, [], JobStatus.jbAVAIL⟩ (by decide)).1,
   (claimed_job_sent_exactly_once 0 2 ⟨42, [], JobStatus.jbAVAIL⟩ (by decide)).2
     false false true
     [(false, SendRes.eagain), (true, SendRes.ok)]
     [(false, PollAction.sendAttempt 42 SendRes.eagain), (false, PollAction.warnFull),
      (false, PollAction.sleepSecs 60), (true, PollAction.sendAttempt 42 SendRes.ok)] rfl⟩

/-- C2: `process_submission_queue` returns 0 when the loop exits because the
shutdown flag was already set or a signal just set it, returns 1 with the
flag set when the claim attempt yields no job object or the notification
wait fails, returns 2 with the flag set when the channel send fails with an
error other than queue-full, and in general any nonzero result is
accompanied by the shutdown flag having been set before returning. -/
theorem pollqueue_result_codes :
    (∀ (fuel : Nat) (env : PollEnv), pollLoop (fuel + 1) true env = some ⟨0, true, []⟩) ∧
    (∀ (fuel : Nat) (stail : List Bool) (claims : List (Option ParseJob))
        (waits : List Int) (sends : List SendRes),
      pollLoop (fuel + 1) false ⟨true :: stail, claims, waits, sends⟩ = some ⟨0, true, []⟩) ∧
    (∀ (fuel : Nat) (stail : List Bool) (ctail : List (Option ParseJob))
        (waits : List Int) (sends : List SendRes),
      pollLoop (fuel + 1) false ⟨false :: stail, none :: ctail, waits, sends⟩ =
        some ⟨1, true, [PollAction.claimed none, PollAction.setShutdown]⟩) ∧
    (∀ (fuel : Nat) (stail : List Bool) (job : ParseJob) (ctail : List (Option ParseJob))
        (w : Int) (wtail : List Int) (sends : List SendRes),
      job.status = JobStatus.jbNONE → w < 1 →
      pollLoop (fuel + 1) false ⟨false :: stail, some job :: ctail, w :: wtail, sends⟩ =
        some ⟨1, true, [PollAction.claimed (some job), PollAction.freed job.submid,
          PollAction.waited w, PollAction.setShutdown]⟩) ∧
    (∀ (fuel : Nat) (stail : List Bool) (job : ParseJob) (ctail : List (Option ParseJob))
        (waits : List Int) (sends rem : List SendRes) (acts : List PollAction),
      job.status ≠ JobStatus.jbNONE → sendLoop job.submid sends = some (true, rem, acts) →
      pollLoop (fuel + 1) false ⟨false :: stail, some job :: ctail, waits, sends⟩ =
        some ⟨2, true, PollAction.claimed (some job) ::
          PollAction.logNewJob job.submid job.filename :: (acts ++ [PollAction.setShutdown])⟩) ∧
    (∀ (fuel : Nat) (sd : Bool) (env : PollEnv) (r : PollResult),
      pollLoop fuel sd env = some r → r.rc ≠ 0 → r.shutdown = true) := by
  refine ⟨?_, ?_, ?_, ?_, ?_, ?_⟩
  · intro fuel env
    simp [pollLoop]
  · intro fuel stail claims waits sends
    simp [pollLoop]
  · intro fuel stail ctail waits sends
    simp [pollLoop]
  · intro fuel stail job ctail w wtail sends hst hw
    simp [pollLoop, hst, hw]
  · intro fuel stail job ctail waits sends rem acts hst hsl
    simp [pollLoop, hst, hsl]
  · intro fuel sd env r h
    exact (pollLoop_rc fuel sd env r h).2

/-- Witness for `pollqueue_result_codes` at concrete environments: shutdown
already requested (result 0), claim failure (result 1), notification-wait
failure (result 1), and a fatal channel-send error (result 2). -/
theorem pollqueue_result_codes_witness :
    pollLoop 1 true ⟨[], [], [], []⟩ = some ⟨0, true, []⟩ ∧
    pollLoop 1 false ⟨[false], [none], [], []⟩ =
      some ⟨1, true, [PollAction.claimed none, PollAction.setShutdown]⟩ ∧
    pollLoop 1 false ⟨[false], [some ⟨9, [], JobStatus.jbNONE⟩], [0], []⟩ =
      some ⟨1, true, [PollAction.claimed (some ⟨9, [], JobStatus.jbNONE⟩),
        PollAction.freed 9, PollAction.waited 0, PollAction.setShutdown]⟩ ∧
    pollLoop 1 false ⟨[false], [some ⟨7, [], JobStatus.jbAVAIL⟩], [], [SendRes.err]⟩ =
      some ⟨2, true, [PollAction.claimed (some ⟨7, [], JobStatus.jbAVAIL⟩),
        PollAction.logNewJob 7 [], PollAction.sendAttempt 7 SendRes.err,
        PollAction.setShutdown]⟩ :=
  ⟨pollqueue_result_codes.1 0 ⟨[], [], [], []⟩,
   pollqueue_result_codes.2.2.1 0 [] [] [] [],
   pollqueue_result_codes.2.2.2.1 0 [] ⟨9, [], JobStatus.jbNONE⟩ [] 0 [] []
     rfl (by decide),
   pollqueue_result_codes.2.2.2.2.1 0 [] ⟨7, [], JobStatus.jbAVAIL⟩ [] [] [SendRes.err] []
     [PollAction.sendAttempt 7 SendRes.err] (by decide) rfl⟩

/-- C6: when a claim attempt returns a job whose status is `jbNONE` the
poller frees that job value, blocks in the notification wait (the wait call
receives the shutdown flag so it can be woken early), and re-attempts the
claim only after the wait returns — the continuation run starts with the
next claim from the remaining oracle; a wait result below 1 is fatal with
the flag set and result 1; and, globally, every send attempt in any trace
belongs to a job that was claimed with a status other than `jbNONE`, so a
`jbNONE` job is never sent into the channel. -/
theorem pollqueue_none_waits :
    (∀ (fuel : Nat) (stail : List Bool) (job : ParseJob) (ctail : List (Option ParseJob))
        (w : Int) (wtail : List Int) (sends : List SendRes),
      job.status = JobStatus.jbNONE → 1 ≤ w →
      pollLoop (fuel + 1) false ⟨false :: stail, some job :: ctail, w :: wtail, sends⟩ =
        (pollLoop fuel false ⟨stail, ctail, wtail, sends⟩).map
          (fun r => ⟨r.rc, r.shutdown,
            PollAction.claimed (some job) :: PollAction.freed job.submid ::
            PollAction.waited w :: r.trace⟩)) ∧
    (∀ (fuel : Nat) (stail : List Bool) (job : ParseJob) (ctail : List (Option ParseJob))
        (w : Int) (wtail : List Int) (sends : List SendRes),
      job.status = JobStatus.jbNONE → w < 1 →
      pollLoop (fuel + 1) false ⟨false :: stail, some job :: ctail, w :: wtail, sends⟩ =
        some ⟨1, true, [PollAction.claimed (some job), PollAction.freed job.submid,
          PollAction.waited w, PollAction.setShutdown]⟩) ∧
    (∀ (fuel : Nat) (sd : Bool) (env : PollEnv) (r : PollResult),
      pollLoop fuel sd env = some r →
      ∀ (s : Nat) (res : SendRes), PollAction.sendAttempt s res ∈ r.trace →
        ∃ j, PollAction.claimed (some j) ∈ r.trace ∧ j.submid = s ∧
          j.status ≠ JobStatus.jbNONE) := by
  refine ⟨?_, ?_, ?_⟩
  · intro fuel stail job ctail w wtail sends hst hw
    have hnlt : ¬(w < 1) := by omega
    simp [pollLoop, hst, hnlt]
  · intro fuel stail job ctail w wtail sends hst hw
    simp [pollLoop, hst, hw]
  · intro fuel sd env r h
    exact pollLoop_send_claimed fuel sd env r h

/-- Witness for `pollqueue_none_waits`: a `jbNONE` job is freed, the wait
succeeds, and the next iteration observes the signal and stops cleanly; the
job is never sent. -/
theorem pollqueue_none_waits_witness :
    pollLoop 2 false ⟨[false, true], [some ⟨5, [], JobStatus.jbNONE⟩, none], [3], []⟩ =
      some ⟨0, true, [PollAction.claimed (some ⟨5, [], JobStatus.jbNONE⟩),
        PollAction.freed 5, PollAction.waited 3]⟩ := by
  rw [pollqueue_none_waits.1 1 [true] ⟨5, [], JobStatus.jbNONE⟩ [none] 3 [] []
    rfl (by decide)]
  rfl

/-- C3: `sigcatch` transitions the shutdown flag from 0 to 1 exactly on its
first invocation, logging the "starting shutdown" line; every later
invocation leaves the flag unchanged (never resetting it) and logs only the
distinguishable "in progress" line; and every invocation re-installs the
handler for both SIGINT and SIGTERM. -/
theorem sigcatch_single_transition (s : SigState) :
    (s.shutdown = 0 →
      sigcatch s = ⟨1, s.log ++ [LogEvent.startingShutdown],
        SigHandler.sigcatchH, SigHandler.sigcatchH⟩) ∧
    (s.shutdown ≠ 0 →
      (sigcatch s).shutdown = s.shutdown ∧
      (sigcatch s).log = s.log ++ [LogEvent.shutdownInProgress]) ∧
    (sigcatch s).sigint = SigHandler.sigcatchH ∧
    (sigcatch s).sigterm = SigHandler.sigcatchH ∧
    (s.shutdown = 0 →
      sigcatch (sigcatch s) = ⟨1,
        s.log ++ [LogEvent.startingShutdown, LogEvent.shutdownInProgress],
        SigHandler.sigcatchH, SigHandler.sigcatchH⟩) := by
  rcases s with ⟨sd, log, h1, h2⟩
  by_cases hsd : sd = 0 <;> simp [sigcatch, hsd]

/-- Witness for `sigcatch_single_transition` starting from the initial
process state (flag 0, default handlers). -/
theorem sigcatch_single_transition_witness :
    sigcatch ⟨0, [], SigHandler.defaultH, SigHandler.defaultH⟩ =
      ⟨1, [LogEvent.startingShutdown], SigHandler.sigcatchH, SigHandler.sigcatchH⟩ ∧
    sigcatch (sigcatch ⟨0, [], SigHandler.defaultH, SigHandler.defaultH⟩) =
      ⟨1, [LogEvent.startingShutdown, LogEvent.shutdownInProgress],
        SigHandler.sigcatchH, SigHandler.sigcatchH⟩ :=
  ⟨(sigcatch_single_transition ⟨0, [], SigHandler.defaultH, SigHandler.defaultH⟩).1 rfl,
   (sigcatch_single_transition ⟨0, [], SigHandler.defaultH, SigHandler.defaultH⟩).2.2.2.2 rfl⟩

/-! ### Claims about the message-queue capacity -/

lemma get_mqueue_msg_max_spec (v : Int) :
    get_mqueue_msg_max MqMaxRead.openFail = DEFAULT_MSG_MAX ∧
    get_mqueue_msg_max MqMaxRead.readFail = DEFAULT_MSG_MAX ∧
    get_mqueue_msg_max (MqMaxRead.content 0) = DEFAULT_MSG_MAX ∧
    (1 ≤ v → v < 2147483648 → get_mqueue_msg_max (MqMaxRead.content v) = v.toNat) ∧
    (-2147483648 ≤ v → v < 0 →
      get_mqueue_msg_max (MqMaxRead.content v) = (v + 4294967296).toNat) ∧
    (-2147483648 ≤ v → v < 2147483648 →
      1 ≤ get_mqueue_msg_max (MqMaxRead.content v)) := by
  refine ⟨rfl, rfl, by norm_num [get_mqueue_msg_max], ?_, ?_, ?_⟩
  · intro h1 h2
    simp only [get_mqueue_msg_max, DEFAULT_MSG_MAX]
    split <;> omega
  · intro h1 h2
    simp only [get_mqueue_msg_max, DEFAULT_MSG_MAX]
    split <;> omega
  · intro h1 h2
    simp only [get_mqueue_msg_max, DEFAULT_MSG_MAX]
    split <;> omega

/-- C9 counterexample: the limit file content parsing to the negative value
-7 does not make `get_mqueue_msg_max` substitute the default 5; the value is
converted to `unsigned int`, yielding 4294967289. -/
theorem mqueue_msg_max_negative_counterexample :
    get_mqueue_msg_max (MqMaxRead.content (-7)) = 4294967289 ∧
    get_mqueue_msg_max (MqMaxRead.content (-7)) ≠ DEFAULT_MSG_MAX := by
  norm_num [get_mqueue_msg_max, DEFAULT_MSG_MAX]
  decide

/-- C9 (amended): `get_mqueue_msg_max` always returns a value of at least 1
for any `int`-range parse result: a zero parse (and an open or read failure)
is replaced by the default 5, while a negative parse is converted to
`unsigned int` (adding 2^32), which is large but still positive — only the
zero case actually hits the default substitution. -/
theorem mqueue_msg_max_positive (v : Int)
    (h1 : -2147483648 ≤ v) (h2 : v < 2147483648) :
    1 ≤ get_mqueue_msg_max (MqMaxRead.content v) ∧
    (v = 0 → get_mqueue_msg_max (MqMaxRead.content v) = DEFAULT_MSG_MAX) ∧
    (v < 0 → get_mqueue_msg_max (MqMaxRead.content v) = (v + 4294967296).toNat) ∧
    1 ≤ get_mqueue_msg_max MqMaxRead.openFail ∧
    1 ≤ get_mqueue_msg_max MqMaxRead.readFail := by
  obtain ⟨ho, hr, hz, hpos, hneg, hge⟩ := get_mqueue_msg_max_spec v
  refine ⟨hge h1 h2, ?_, fun hv => hneg h1 hv, by rw [ho]; norm_num [DEFAULT_MSG_MAX],
    by rw [hr]; norm_num [DEFAULT_MSG_MAX]⟩
  intro hv
  subst hv
  exact hz

/-- Witness for `mqueue_msg_max_positive` at the parse result -7. -/
theorem mqueue_msg_max_positive_witness :
    1 ≤ get_mqueue_msg_max (MqMaxRead.content (-7)) ∧
    ((-7 : Int) = 0 → get_mqueue_msg_max (MqMaxRead.content (-7)) = DEFAULT_MSG_MAX) ∧
    ((-7 : Int) < 0 →
      get_mqueue_msg_max (MqMaxRead.content (-7)) = ((-7 : Int) + 4294967296).toNat) ∧
    1 ≤ get_mqueue_msg_max MqMaxRead.openFail ∧
    1 ≤ get_mqueue_msg_max MqMaxRead.readFail :=
  mqueue_msg_max_positive (-7) (by norm_num) (by norm_num)

/-- C7 counterexample: with the limit file parsing to -3 (not a usable
limit), the capacity handed to `mq_open` is not the conservative default 5
but the wrapped unsigned value 4294967293. -/
theorem channel_capacity_counterexample :
    (mainRun ⟨⟨[], []⟩, true, MqMaxRead.content (-3), true, true, [], [], 0, []⟩).capacity
      = 4294967293 ∧
    (mainRun ⟨⟨[], []⟩, true, MqMaxRead.content (-3), true, true, [], [], 0, []⟩).capacity
      ≠ DEFAULT_MSG_MAX := by
  norm_num [mainRun, mainCore, mkResult, get_mqueue_msg_max, DEFAULT_MSG_MAX, prepGo,
    slotAt, startGo]
  decide

/-- C7 (amended): the channel capacity recorded in the queue attributes at
open time equals `get_mqueue_msg_max` of the read oracle: the system value
when it parses to a number of at least 1, the default 5 when the file cannot
be opened, cannot be read, or parses to 0, and the value wrapped modulo 2^32
(not the default) when it parses to a negative number. -/
theorem channel_capacity_amended (env : MainEnv) (v : Int) (hx : env.xsltOk = true) :
    (mainRun env).capacity = get_mqueue_msg_max env.mqRead ∧
    ((env.mqRead = MqMaxRead.openFail ∨ env.mqRead = MqMaxRead.readFail ∨
        env.mqRead = MqMaxRead.content 0) →
      (mainRun env).capacity = DEFAULT_MSG_MAX) ∧
    (env.mqRead = MqMaxRead.content v → 1 ≤ v → v < 2147483648 →
      (mainRun env).capacity = v.toNat) ∧
    (env.mqRead = MqMaxRead.content v → -2147483648 ≤ v → v < 0 →
      (mainRun env).capacity = (v + 4294967296).toNat) := by
  obtain ⟨ho, hr, hz, hpos, hneg, hge⟩ := get_mqueue_msg_max_spec v
  have hcap : (mainRun env).capacity = get_mqueue_msg_max env.mqRead := by
    simp only [mainRun, mainCore]
    rw [if_neg (by simp [hx])]
    split_ifs <;> rfl
  refine ⟨hcap, ?_, ?_, ?_⟩
  · rintro (h | h | h) <;> rw [hcap, h]
    · exact ho
    · exact hr
    · exact hz
  · intro h hv1 hv2
    rw [hcap, h]
    exact hpos hv1 hv2
  · intro h hv1 hv2
    rw [hcap, h]
    exact hneg hv1 hv2

/-- Witness for `channel_capacity_amended` at a successful startup whose
limit file parses to 64. -/
theorem channel_capacity_amended_witness :
    (mainRun ⟨⟨[], []⟩, true, MqMaxRead.content 64, true, true, [], [], 0, []⟩).capacity
      = get_mqueue_msg_max (MqMaxRead.content 64) ∧
    ((MqMaxRead.content 64 = MqMaxRead.openFail ∨ MqMaxRead.content 64 = MqMaxRead.readFail ∨
        MqMaxRead.content 64 = MqMaxRead.content 0) →
      (mainRun ⟨⟨[], []⟩, true, MqMaxRead.content 64, true, true, [], [], 0, []⟩).capacity
        = DEFAULT_MSG_MAX) ∧
    (MqMaxRead.content 64 = MqMaxRead.content (64 : Int) → 1 ≤ (64 : Int) →
      (64 : Int) < 2147483648 →
      (mainRun ⟨⟨[], []⟩, true, MqMaxRead.content 64, true, true, [], [], 0, []⟩).capacity
        = (64 : Int).toNat) ∧
    (MqMaxRead.content 64 = MqMaxRead.content (64 : Int) → -2147483648 ≤ (64 : Int) →
      (64 : Int) < 0 →
      (mainRun ⟨⟨[], []⟩, true, MqMaxRead.content 64, true, true, [], [], 0, []⟩).capacity
        = ((64 : Int) + 4294967296).toNat) :=
  channel_capacity_amended ⟨⟨[], []⟩, true, MqMaxRead.content 64, true, true, [], [], 0, []⟩
    64 rfl

/-! ### Claims about main: pool size, stylesheet path, exit codes -/

/-- C8: the worker pool size is hard-coded to 5 — on a fully successful
startup `main` allocates 5 worker contexts, opens 5 private database
connections and starts 5 worker threads, and these counts (as well as the
exit code) do not depend on any configuration value. -/
theorem worker_pool_fixed_five :
    (∀ (env : MainEnv), env.xsltOk = true → env.mqOpenOk = true → env.dbMainOk = true →
      env.slots = List.replicate 5 ⟨true, true, true, true⟩ →
      env.createRes = List.replicate 5 0 →
      (mainRun env).nThrdata = 5 ∧ (mainRun env).nWorkerDb = 5 ∧
      (mainRun env).nThreadsAlloc = 5 ∧ (mainRun env).startedActual = 5 ∧
      (mainRun env).rc = env.pollerRc) ∧
    (∀ (env : MainEnv) (c : Config),
      (mainRun (withConfig env c)).nThrdata = (mainRun env).nThrdata ∧
      (mainRun (withConfig env c)).nWorkerDb = (mainRun env).nWorkerDb ∧
      (mainRun (withConfig env c)).nThreadsAlloc = (mainRun env).nThreadsAlloc ∧
      (mainRun (withConfig env c)).startedActual = (mainRun env).startedActual ∧
      (mainRun (withConfig env c)).rc = (mainRun env).rc) := by
  constructor
  · intro env hx hm hd hsl hcr
    have hlink : ∀ (e : MainEnv), mainRun e =
        { mainCore e.xsltOk e.mqRead e.mqOpenOk e.dbMainOk e.slots e.createRes e.pollerRc
            e.joinRes with
          xsltfile := buildXsltPath e.cfg.xsltpath } := fun _ => rfl
    rw [hlink, hx, hm, hd, hsl, hcr]
    exact ⟨rfl, rfl, rfl, rfl, rfl⟩
  · intro env c
    exact ⟨rfl, rfl, rfl, rfl, rfl⟩

/-- Witness for `worker_pool_fixed_five` at a concrete successful startup. -/
theorem worker_pool_fixed_five_witness :
    (mainRun ⟨⟨[], []⟩, true, MqMaxRead.content 10, true, true,
        List.replicate 5 ⟨true, true, true, true⟩, List.replicate 5 0, 0, []⟩).nThrdata = 5 ∧
    (mainRun ⟨⟨[], []⟩, true, MqMaxRead.content 10, true, true,
        List.replicate 5 ⟨true, true, true, true⟩, List.replicate 5 0, 0, []⟩).nWorkerDb = 5 ∧
    (mainRun ⟨⟨[], []⟩, true, MqMaxRead.content 10, true, true,
        List.replicate 5 ⟨true, true, true, true⟩, List.replicate 5 0, 0, []⟩).nThreadsAlloc = 5 ∧
    (mainRun ⟨⟨[], []⟩, true, MqMaxRead.content 10, true, true,
        List.replicate 5 ⟨true, true, true, true⟩, List.replicate 5 0, 0, []⟩).startedActual = 5 ∧
    (mainRun ⟨⟨[], []⟩, true, MqMaxRead.content 10, true, true,
        List.replicate 5 ⟨true, true, true, true⟩, List.replicate 5 0, 0, []⟩).rc =
      (⟨⟨[], []⟩, true, MqMaxRead.content 10, true, true,
        List.replicate 5 ⟨true, true, true, true⟩, List.replicate 5 0, 0, []⟩ : MainEnv).pollerRc :=
  worker_pool_fixed_five.1 ⟨⟨[], []⟩, true, MqMaxRead.content 10, true, true,
    List.replicate 5 ⟨true, true, true, true⟩, List.replicate 5 0, 0, []⟩
    rfl rfl rfl rfl rfl

/-- C10: the stylesheet path is formatted with a write limit of 512 bytes
into a 2050-byte buffer, so it holds at most 511 characters; when the
configured template directory plus "/xmlparser.xsl" exceeds 511 characters
the path is truncated to its first 511 characters, and the truncation is
silent — the exit code of the run does not depend on the configured path at
all. -/
theorem xslt_path_truncated (p : List Char) :
    (buildXsltPath p).length ≤ 511 ∧
    SNPRINTF_SIZE - 1 = 511 ∧ SNPRINTF_SIZE ≤ XSLTFILE_BUF ∧
    buildXsltPath p = (p ++ '/' :: XMLPARSER_XSL).take 511 ∧
    (511 < (p ++ '/' :: XMLPARSER_XSL).length →
      buildXsltPath p ≠ p ++ '/' :: XMLPARSER_XSL) ∧
    (∀ (env : MainEnv), (mainRun env).xsltfile = buildXsltPath env.cfg.xsltpath) ∧
    (∀ (env : MainEnv) (q : List Char),
      (mainRun (withXsltPath env q)).rc = (mainRun env).rc) := by
  refine ⟨?_, rfl, by norm_num [SNPRINTF_SIZE, XSLTFILE_BUF], rfl, ?_, ?_, ?_⟩
  · simp [buildXsltPath, SNPRINTF_SIZE, List.length_take]
  · intro hlen hcontra
    have := congrArg List.length hcontra
    simp [buildXsltPath, SNPRINTF_SIZE, List.length_take, List.length_append] at this hlen
    omega
  · intro env
    rfl
  · intro env q
    rfl

/-- Witness for `xslt_path_truncated`: a 600-character template directory
makes the formatted path differ from the untruncated one. -/
theorem xslt_path_truncated_witness :
    buildXsltPath (List.replicate 600 'a') ≠
      List.replicate 600 'a' ++ '/' :: XMLPARSER_XSL :=
  (xslt_path_truncated (List.replicate 600 'a')).2.2.2.2.1
    (by norm_num [XMLPARSER_XSL, List.length_replicate, List.length_append])

/-- C5: evaluation of the thread-start failure handling.  Per POSIX,
`pthread_create` reports failure through a positive error number (here 11,
EAGAIN), yet `main` only treats a negative return as failure: with every
`pthread_create` call failing, no worker thread is started but `main`
proceeds, runs the poller, and exits with the poller's code 0 — never with
the documented code 3.  Code 3 is produced only for a negative return,
which `pthread_create` never yields. -/
theorem thread_start_failure_not_detected :
    (mainRun ⟨⟨[], []⟩, true, MqMaxRead.content 10, true, true,
        List.replicate 5 ⟨true, true, true, true⟩, List.replicate 5 11, 0, []⟩).rc = 0 ∧
    (mainRun ⟨⟨[], []⟩, true, MqMaxRead.content 10, true, true,
        List.replicate 5 ⟨true, true, true, true⟩, List.replicate 5 11, 0, []⟩).startedActual
      = 0 ∧
    (mainRun ⟨⟨[], []⟩, true, MqMaxRead.content 10, true, true,
        List.replicate 5 ⟨true, true, true, true⟩, List.replicate 5 11, 0, []⟩).rc ≠ 3 ∧
    (∀ r ∈ List.replicate 5 (11 : Int), r ≠ 0) ∧
    (mainRun ⟨⟨[], []⟩, true, MqMaxRead.content 10, true, true,
        List.replicate 5 ⟨true, true, true, true⟩, [-1, 0, 0, 0, 0], 0, []⟩).rc = 3 := by
  refine ⟨rfl, rfl, by decide, by decide, rfl⟩

/-! ### Claims about teardown ordering -/

/-- Predicate for a thread-join step of any slot. -/
def isJoinA : TDAction → Bool
  | TDAction.joinThread _ => true
  | _ => false

/-- Predicate selecting the join and the worker-disconnect step of slot `i`. -/
def pairPred (i : Nat) (a : TDAction) : Bool :=
  decide (a = TDAction.joinThread i) || decide (a = TDAction.disconnectWorker i)

/-- Predicate selecting every join step and the channel-close step. -/
def joinClosePred (a : TDAction) : Bool :=
  isJoinA a || decide (a = TDAction.mqClose)

/-- Same run with different `pthread_join` results. -/
def withJoinRes (env : MainEnv) (jr : List Int) : MainEnv := { env with joinRes := jr }

lemma slotTeardown_filter_pair (nT nD : Nat) (jr : List Int) (i j : Nat) :
    (slotTeardown nT nD jr j).filter (pairPred i) =
      (if i = j ∧ j < nT then [TDAction.joinThread i] else []) ++
      (if i = j ∧ j < nD then [TDAction.disconnectWorker i] else []) := by
  unfold slotTeardown
  by_cases hij : i = j
  · subst hij
    split_ifs <;> simp_all [pairPred, List.filter_append]
  · split_ifs <;> simp_all [pairPred, List.filter_append] <;> simp [Ne.symm hij]

lemma tailTeardown_filter_pair (i : Nat) : tailTeardown.filter (pairPred i) = [] := by
  simp [tailTeardown, pairPred]

lemma slotTeardown_filter_joinClose (nT nD : Nat) (jr : List Int) (j : Nat) :
    (slotTeardown nT nD jr j).filter joinClosePred =
      if j < nT then [TDAction.joinThread j] else [] := by
  unfold slotTeardown
  split_ifs <;> simp_all [joinClosePred, isJoinA, List.filter_append]

lemma tailTeardown_filter_joinClose : tailTeardown.filter joinClosePred = [TDAction.mqClose] := by
  simp [tailTeardown, joinClosePred, isJoinA]

lemma slotTeardown_mem_join (nT nD : Nat) (jr : List Int) (i j : Nat) :
    TDAction.joinThread i ∈ slotTeardown nT nD jr j ↔ i = j ∧ j < nT := by
  unfold slotTeardown
  split_ifs <;> simp_all

lemma slotTeardown_mem_log (nT nD : Nat) (jr : List Int) (i j : Nat) :
    TDAction.logJoinFail i ∈ slotTeardown nT nD jr j ↔
      i = j ∧ j < nT ∧ jr.getD j 0 ≠ 0 := by
  unfold slotTeardown
  split_ifs <;> simp_all

lemma prepGo_bounds (slots : List SlotEnv) : ∀ (rem i : Nat),
    (prepGo slots rem i).nThreadsAlloc ≤ (prepGo slots rem i).nThrdata ∧
    (prepGo slots rem i).nThrdata ≤ i + rem := by
  intro rem
  induction rem with
  | zero => intro i; simp [prepGo]
  | succ rem ih =>
    intro i
    simp only [prepGo]
    split_ifs
    · exact ⟨Nat.le_refl i, by show i ≤ i + (rem + 1); omega⟩
    · exact ⟨Nat.le_succ i, by show i + 1 ≤ i + (rem + 1); omega⟩
    · exact ⟨Nat.le_succ i, by show i + 1 ≤ i + (rem + 1); omega⟩
    · exact ⟨Nat.le_succ i, by show i + 1 ≤ i + (rem + 1); omega⟩
    · obtain ⟨h1, h2⟩ := ih (i + 1)
      exact ⟨h1, by omega⟩

/-- C4 counterexample: with startup succeeding through allocation but the
first `pthread_create` failing detectably (modelled by a negative return),
no worker thread was ever started, yet teardown performs a join for every
one of the five allocated slots — a slot whose thread was never started is
not skipped (only slots with no allocated handle are). -/
theorem teardown_joins_unstarted_counterexample :
    (mainRun ⟨⟨[], []⟩, true, MqMaxRead.content 10, true, true,
        List.replicate 5 ⟨true, true, true, true⟩, [-1, 0, 0, 0, 0], 0, []⟩).startedActual
      = 0 ∧
    (mainRun ⟨⟨[], []⟩, true, MqMaxRead.content 10, true, true,
        List.replicate 5 ⟨true, true, true, true⟩, [-1, 0, 0, 0, 0], 0, []⟩).rc = 3 ∧
    TDAction.joinThread 0 ∈
      (mainRun ⟨⟨[], []⟩, true, MqMaxRead.content 10, true, true,
        List.replicate 5 ⟨true, true, true, true⟩, [-1, 0, 0, 0, 0], 0, []⟩).teardown ∧
    TDAction.joinThread 4 ∈
      (mainRun ⟨⟨[], []⟩, true, MqMaxRead.content 10, true, true,
        List.replicate 5 ⟨true, true, true, true⟩, [-1, 0, 0, 0, 0], 0, []⟩).teardown := by
  refine ⟨rfl, rfl, by decide, by decide⟩

lemma teardown_link (env : MainEnv) :
    ∃ nT nD, nT ≤ nD ∧ nD ≤ 5 ∧
      (mainRun env).nThreadsAlloc = nT ∧ (mainRun env).nThrdata = nD ∧
      (mainRun env).teardown = teardownTrace nT nD env.joinRes := by
  show ∃ nT nD, nT ≤ nD ∧ nD ≤ 5 ∧
    (mainCore env.xsltOk env.mqRead env.mqOpenOk env.dbMainOk env.slots env.createRes
      env.pollerRc env.joinRes).nThreadsAlloc = nT ∧
    (mainCore env.xsltOk env.mqRead env.mqOpenOk env.dbMainOk env.slots env.createRes
      env.pollerRc env.joinRes).nThrdata = nD ∧
    (mainCore env.xsltOk env.mqRead env.mqOpenOk env.dbMainOk env.slots env.createRes
      env.pollerRc env.joinRes).teardown = teardownTrace nT nD env.joinRes
  obtain ⟨hb1, hb2⟩ := prepGo_bounds env.slots 5 0
  unfold mainCore mkResult
  dsimp only
  split_ifs
  · exact ⟨0, 0, Nat.le_refl 0, by omega, rfl, rfl, rfl⟩
  · exact ⟨0, 0, Nat.le_refl 0, by omega, rfl, rfl, rfl⟩
  · exact ⟨0, 0, Nat.le_refl 0, by omega, rfl, rfl, rfl⟩
  · exact ⟨(prepGo env.slots 5 0).nThreadsAlloc, (prepGo env.slots 5 0).nThrdata,
      hb1, by omega, rfl, rfl, rfl⟩
  · exact ⟨5, 5, Nat.le_refl 5, by omega, rfl, rfl, rfl⟩
  · exact ⟨5, 5, Nat.le_refl 5, by omega, rfl, rfl, rfl⟩

lemma teardown_pair_order (nT nD : Nat) (jr : List Int) (i : Nat)
    (h1 : i < nT) (h2 : i < nD) (h5 : i < 5) :
    (teardownTrace nT nD jr).filter (pairPred i) =
      [TDAction.joinThread i, TDAction.disconnectWorker i] := by
  have hr : List.range 5 = [0, 1, 2, 3, 4] := rfl
  rw [teardownTrace, hr]
  simp only [List.flatMap_cons, List.flatMap_nil, List.append_nil, List.filter_append,
    slotTeardown_filter_pair, tailTeardown_filter_pair]
  interval_cases i <;> simp [h1, h2]

set_option maxHeartbeats 1000000 in
lemma teardown_joins_before_close (nT nD : Nat) (jr : List Int) :
    (teardownTrace nT nD jr).filter joinClosePred =
      ((List.range 5).filter (fun j => decide (j < nT))).map TDAction.joinThread ++
        [TDAction.mqClose] := by
  have hr : List.range 5 = [0, 1, 2, 3, 4] := rfl
  rw [teardownTrace, hr]
  simp only [List.flatMap_cons, List.flatMap_nil, List.append_nil, List.filter_append,
    slotTeardown_filter_joinClose, tailTeardown_filter_joinClose, List.filter_cons,
    List.filter_nil, decide_eq_true_eq]
  split_ifs <;> simp

lemma teardown_join_iff_allocated (nT nD : Nat) (jr : List Int) (i : Nat) :
    TDAction.joinThread i ∈ teardownTrace nT nD jr ↔ i < nT ∧ i < 5 := by
  have hr : List.range 5 = [0, 1, 2, 3, 4] := rfl
  rw [teardownTrace, hr]
  have htail : TDAction.joinThread i ∉ tailTeardown := by simp [tailTeardown]
  simp only [List.flatMap_cons, List.flatMap_nil, List.append_nil, List.mem_append,
    slotTeardown_mem_join]
  simp [htail]
  omega

lemma teardown_logs_join_failure (nT nD : Nat) (jr : List Int) (i : Nat)
    (h1 : i < nT) (h5 : i < 5) (hj : jr.getD i 0 ≠ 0) :
    TDAction.logJoinFail i ∈ teardownTrace nT nD jr := by
  have hr : List.range 5 = [0, 1, 2, 3, 4] := rfl
  rw [teardownTrace, hr]
  simp only [List.flatMap_cons, List.flatMap_nil, List.append_nil, List.mem_append,
    slotTeardown_mem_log]
  interval_cases i <;> tauto

lemma mainRun_rc_joinRes_indep (env : MainEnv) (jr2 : List Int) :
    (mainRun (withJoinRes env jr2)).rc = (mainRun env).rc := by
  show (mainCore env.xsltOk env.mqRead env.mqOpenOk env.dbMainOk env.slots env.createRes
      env.pollerRc jr2).rc =
    (mainCore env.xsltOk env.mqRead env.mqOpenOk env.dbMainOk env.slots env.createRes
      env.pollerRc env.joinRes).rc
  unfold mainCore mkResult
  dsimp only
  split_ifs <;> rfl

/-- C4 (amended): teardown always runs through the single exit path — its
trace is a function of how many thread handles and worker contexts were
allocated (both at most 5, handles never exceeding contexts) and always ends
with the array frees, channel close, channel unlink, dispatcher disconnect,
configuration free and library cleanup; within the loop, slot `i`'s join
occurs exactly once and directly before that worker's disconnect; every join
precedes the channel close; a join is attempted for slot `i` precisely when
`threads[i]` was allocated — even if the thread was never started, so only
slots with no allocated handle are skipped; a failing join adds only a log
line; and the exit code never depends on the join results. -/
theorem teardown_order_amended :
    (∀ (env : MainEnv), ∃ nT nD, nT ≤ nD ∧ nD ≤ 5 ∧
      (mainRun env).nThreadsAlloc = nT ∧ (mainRun env).nThrdata = nD ∧
      (mainRun env).teardown = teardownTrace nT nD env.joinRes) ∧
    (∀ (nT nD : Nat) (jr : List Int), ∃ pre, teardownTrace nT nD jr = pre ++ tailTeardown) ∧
    (∀ (nT nD : Nat) (jr : List Int) (i : Nat), i < nT → i < nD → i < 5 →
      (teardownTrace nT nD jr).filter (pairPred i) =
        [TDAction.joinThread i, TDAction.disconnectWorker i]) ∧
    (∀ (nT nD : Nat) (jr : List Int),
      (teardownTrace nT nD jr).filter joinClosePred =
        ((List.range 5).filter (fun j => decide (j < nT))).map TDAction.joinThread ++
          [TDAction.mqClose]) ∧
    (∀ (nT nD : Nat) (jr : List Int) (i : Nat),
      TDAction.joinThread i ∈ teardownTrace nT nD jr ↔ i < nT ∧ i < 5) ∧
    (∀ (nT nD : Nat) (jr : List Int) (i : Nat), i < nT → i < 5 → jr.getD i 0 ≠ 0 →
      TDAction.logJoinFail i ∈ teardownTrace nT nD jr) ∧
    (∀ (env : MainEnv) (jr2 : List Int),
      (mainRun (withJoinRes env jr2)).rc = (mainRun env).rc) :=
  ⟨teardown_link,
   fun nT nD jr => ⟨(List.range 5).flatMap (slotTeardown nT nD jr), rfl⟩,
   teardown_pair_order,
   teardown_joins_before_close,
   teardown_join_iff_allocated,
   teardown_logs_join_failure,
   mainRun_rc_joinRes_indep⟩

/-- Witness for `teardown_order_amended`: with all five slots allocated and
the join of slot 0 failing, slot 2's join directly precedes its disconnect
in the filtered trace, and the failing join of slot 0 is logged. -/
theorem teardown_order_amended_witness :
    (teardownTrace 5 5 [1]).filter (pairPred 2) =
      [TDAction.joinThread 2, TDAction.disconnectWorker 2] ∧
    TDAction.logJoinFail 0 ∈ teardownTrace 5 5 [1] :=
  ⟨teardown_order_amended.2.2.1 5 5 [1] 2 (by decide) (by decide) (by decide),
   teardown_order_amended.2.2.2.2.2.1 5 5 [1] 0 (by decide) (by decide) (by decide)⟩
